import Mathlib

/-!
Verification of the Deliverable Generation, Review, and Escalation Pipeline
of the apex-ai-marketing backend.

Shallow embedding of:
- backend/tasks/content_tasks.py  (generate_deliverable, review_deliverable,
  iterate_deliverable)
- backend/tasks/audit_tasks.py    (run_full_audit)
- backend/api/content.py          (submit_for_review, approve_deliverable,
  reject_deliverable status transitions)
- backend/models/content.py       (Deliverable record)

Modelling conventions:
- Scores and costs are exact rationals; the Python code computes with floats
  but every claim is about the formula 0.4 * b + 0.6 * q and the threshold
  comparison, which we state exactly.
- Completion Service results (the TODO Claude-API stubs _invoke_agent,
  _invoke_agent_iteration, _check_brand_voice, _quality_gate_review,
  _generate_full_audit, _run_strategy_architect, _build_proposal,
  _run_quality_gate) are inputs to the embedded stage functions: each stage is
  a function of the record plus the agent-call result it consumes, exactly as
  the handler body reads that result dict with .get.
- The JSONB meta_data dict is embedded as the record of the keys the pipeline
  reads or writes (iteration_count, versions, review, last_iterated_at);
  Python dict merge with key overwrite corresponds to record update.
- Database commit at the end of a handler corresponds to returning the updated
  record; a handler that raises before commit persists nothing.
- Numeric-to-text formatting inside human-readable note strings is rendered
  with toString; no claim depends on the decimal formatting.
-/

namespace Apex

/-- One review record as written by review_deliverable into
meta_data under the key review (content_tasks.py lines 236-244). -/
structure ReviewRecord where
  brand_voice_score : Option ℚ
  quality_score : Option ℚ
  combined_score : ℚ
  reviewed_at : String
deriving DecidableEq

/-- One version-log entry as appended by iterate_deliverable into
meta_data under the key versions (content_tasks.py lines 368-376). -/
structure VersionEntry where
  iteration : Nat
  body_excerpt : String
  feedback : String
  timestamp : String
deriving DecidableEq

/-- The meta_data JSONB dict, restricted to the keys the pipeline reads or
writes. A key that is absent is modelled as none / the empty list. -/
structure MetaData where
  iteration_count : Option Nat
  versions : List VersionEntry
  review : Option ReviewRecord
  last_iterated_at : Option String
deriving DecidableEq

/-- The empty dict: Python meta_data or followed by the empty-dict literal. -/
def MetaData.empty : MetaData :=
  { iteration_count := none, versions := [], review := none, last_iterated_at := none }

/-- The Deliverable record (backend/models/content.py), restricted to the
columns the pipeline reads or writes. -/
structure Deliverable where
  type : String
  title : String
  body : Option String
  meta_data : Option MetaData
  status : String
  review_notes : Option String
  ai_agent_used : String
  ai_model_used : Option String
  ai_cost : Option ℚ
  language : String
deriving DecidableEq

/-- Result dict of one review sub-check call (_check_brand_voice or
_quality_gate_review, and _run_quality_gate in the audit pipeline).
review_deliverable reads only the keys score and feedback; a Completion
Service response also carries a cost figure, which the review handler never
reads, so it is carried here untouched. -/
structure AgentCheckResult where
  score : Option ℚ
  feedback : String
  cost : Option ℚ
deriving DecidableEq

/-- Combined score (content_tasks.py lines 220-223):
brand_voice_result.get with default 0, times 0.4, plus
quality_result.get with default 0, times 0.6. -/
def combined_score_of (brand_voice_result quality_result : AgentCheckResult) : ℚ :=
  brand_voice_result.score.getD 0 * (4/10) + quality_result.score.getD 0 * (6/10)

/-- Display of an optional score in the review notes: the Python code formats
the score value, or the text N/A when the key is missing. -/
def score_text : Option ℚ → String
  | some s => toString s
  | none => "N/A"

/-- The review_notes text assembled at content_tasks.py lines 226-232. -/
def review_notes_text (brand_voice_result quality_result : AgentCheckResult)
    (combined : ℚ) : String :=
  "Brand Voice Score: " ++ score_text brand_voice_result.score ++ "/10\n" ++
  "Quality Score: " ++ score_text quality_result.score ++ "/10\n" ++
  "Combined Score: " ++ toString combined ++ "/10\n\n" ++
  "Brand Voice Feedback:\n" ++ brand_voice_result.feedback ++ "\n\n" ++
  "Quality Feedback:\n" ++ quality_result.feedback

/-- The dict returned by review_deliverable (content_tasks.py lines 248-255). -/
structure ReviewOutput where
  combined_score : ℚ
  brand_voice_score : Option ℚ
  quality_score : Option ℚ
  status : String
  passed : Bool
deriving DecidableEq

/-- review_deliverable (content_tasks.py lines 164-255): computes the combined
score, writes review_notes, sets status to in_review when the combined score
is at least 7.0 and to draft otherwise, and merges a review record into
meta_data (overwriting the review key, keeping the other keys). The body
column is never assigned. -/
def review_deliverable (deliverable : Deliverable)
    (brand_voice_result quality_result : AgentCheckResult)
    (now : String) : Deliverable × ReviewOutput :=
  let combined := combined_score_of brand_voice_result quality_result
  let st := if combined ≥ 7 then "in_review" else "draft"
  let meta := deliverable.meta_data.getD MetaData.empty
  let updated : Deliverable :=
    { deliverable with
      review_notes := some (review_notes_text brand_voice_result quality_result combined)
      status := st
      meta_data := some
        { meta with
          review := some
            { brand_voice_score := brand_voice_result.score
              quality_score := quality_result.score
              combined_score := combined
              reviewed_at := now } } }
  (updated,
   { combined_score := combined
     brand_voice_score := brand_voice_result.score
     quality_score := quality_result.score
     status := st
     passed := decide (combined ≥ 7) })

/-- AGENT_MAP of generate_deliverable (content_tasks.py lines 58-71). -/
def GEN_AGENT_MAP : List (String × String) :=
  [("content_brief", "content_engine"),
   ("article", "content_engine"),
   ("blog_post", "content_engine"),
   ("email_sequence", "email_sequence_builder"),
   ("ad_copy", "paid_performance"),
   ("seo_page", "seo_architect"),
   ("landing_page", "seo_architect"),
   ("social_post", "social_media"),
   ("video_script", "video_script"),
   ("gmb_post", "local_visibility"),
   ("report", "reporting"),
   ("audit_report", "infrastructure_auditor")]

/-- AGENT_MAP of iterate_deliverable (content_tasks.py lines 290-304): the
same twelve entries plus proposal. -/
def ITER_AGENT_MAP : List (String × String) :=
  [("content_brief", "content_engine"),
   ("article", "content_engine"),
   ("blog_post", "content_engine"),
   ("email_sequence", "email_sequence_builder"),
   ("ad_copy", "paid_performance"),
   ("seo_page", "seo_architect"),
   ("landing_page", "seo_architect"),
   ("social_post", "social_media"),
   ("video_script", "video_script"),
   ("gmb_post", "local_visibility"),
   ("report", "reporting"),
   ("audit_report", "infrastructure_auditor"),
   ("proposal", "proposal_builder")]

/-- Result dict of a generation agent call (_invoke_agent), read by
generate_deliverable with .get for every key. -/
structure GeneratedContent where
  title : Option String
  body : Option String
  meta_data : Option MetaData
  model_used : Option String
  cost : Option ℚ
deriving DecidableEq

/-- The dict returned by generate_deliverable (content_tasks.py lines 139-144). -/
structure GenOutput where
  type : String
  status : String
  agent_used : String
deriving DecidableEq

/-- generate_deliverable, single-record part (content_tasks.py lines 98-144):
resolves the agent with AGENT_MAP.get and the default content_engine, and
builds a fresh Deliverable row in status draft from the generated dict. -/
def generate_deliverable (deliverable_type : String) (generated : GeneratedContent)
    (language : String) : Deliverable × GenOutput :=
  let agent_name := (GEN_AGENT_MAP.lookup deliverable_type).getD "content_engine"
  let deliverable : Deliverable :=
    { type := deliverable_type
      title := generated.title.getD (deliverable_type ++ " deliverable")
      body := some (generated.body.getD "")
      meta_data := some (generated.meta_data.getD MetaData.empty)
      status := "draft"
      review_notes := none
      ai_agent_used := agent_name
      ai_model_used := some (generated.model_used.getD "")
      ai_cost := generated.cost
      language := language }
  (deliverable,
   { type := deliverable_type, status := "draft", agent_used := agent_name })

/-- One invocation of generate_deliverable against the deliverables table:
session.add plus commit appends the fresh row unconditionally; no existing
row is consulted. -/
def generate_step (db : List Deliverable) (deliverable_type : String)
    (generated : GeneratedContent) (language : String) : List Deliverable × GenOutput :=
  let r := generate_deliverable deliverable_type generated language
  (db ++ [r.1], r.2)

/-- Result dict of an iteration agent call (_invoke_agent_iteration), read by
iterate_deliverable with .get for every key. -/
structure RevisedDraft where
  title : Option String
  body : Option String
  cost : Option ℚ
deriving DecidableEq

/-- The dict returned by iterate_deliverable (lines 334-339 on escalation,
lines 394-399 on success). -/
structure IterOutput where
  iteration_count : Nat
  status : String
  message : Option String
  agent_used : Option String
deriving DecidableEq

/-- Full outcome of one iterate_deliverable invocation: the committed record,
the returned dict, and whether the Completion Service (the iteration agent)
was invoked. -/
structure IterResult where
  state : Deliverable
  output : IterOutput
  completion_called : Bool
deriving DecidableEq

/-- The review_notes text written on escalation (content_tasks.py
lines 329-332). -/
def escalation_note (iteration_count : Nat) (feedback : String) : String :=
  "ESCALATION: " ++ toString iteration_count ++ " iterations exceeded.\n" ++
  "Latest feedback: " ++ feedback

/-- iterate_deliverable (content_tasks.py lines 272-399). Computes
iteration_count as the stored count (default 0) plus one. When that exceeds 5:
no agent call, the persisted status column is set to in_review, review_notes
is set to the escalation text, and the returned dict reports status escalated.
Otherwise: resolves the agent with AGENT_MAP.get defaulting to content_engine,
appends one version-log entry, replaces body and title from the revised dict
(keeping the old value when a key is missing), sets status draft, stores the
new count, and adds the call cost to ai_cost. -/
def iterate_deliverable (deliverable : Deliverable) (feedback : String)
    (revised : RevisedDraft) (now : String) : IterResult :=
  let meta := deliverable.meta_data.getD MetaData.empty
  let iteration_count := meta.iteration_count.getD 0 + 1
  if iteration_count > 5 then
    { state :=
        { deliverable with
          status := "in_review"
          review_notes := some (escalation_note iteration_count feedback) }
      output :=
        { iteration_count := iteration_count
          status := "escalated"
          message := some "Maximum iterations exceeded. Escalated for manual review."
          agent_used := none }
      completion_called := false }
  else
    let agent_name := (ITER_AGENT_MAP.lookup deliverable.type).getD "content_engine"
    let versions := meta.versions ++
      [{ iteration := iteration_count - 1
         body_excerpt := (deliverable.body.getD "").take 500
         feedback := feedback
         timestamp := now }]
    { state :=
        { deliverable with
          body := match revised.body with
            | some b => some b
            | none => deliverable.body
          title := revised.title.getD deliverable.title
          status := "draft"
          meta_data := some
            { meta with
              iteration_count := some iteration_count
              versions := versions
              last_iterated_at := some now }
          ai_cost := some (deliverable.ai_cost.getD 0 + revised.cost.getD 0) }
      output :=
        { iteration_count := iteration_count
          status := "draft"
          message := none
          agent_used := some agent_name }
      completion_called := true }

/-- One scheduler attempt at iterate_deliverable: when the iteration agent
call fails, the handler raises before commit, so nothing persists and the
scheduler retries; a successful attempt commits the updated record. -/
def iterate_attempt (deliverable : Deliverable) (feedback : String)
    (outcome : Option RevisedDraft) (now : String) : Deliverable :=
  match outcome with
  | none => deliverable
  | some revised => (iterate_deliverable deliverable feedback revised now).state

/-- Python truthiness of a string column: the left value unless it is NULL or
the empty string (the or operator in client.company or client.name). -/
def or_default (value : Option String) (fallback : String) : String :=
  match value with
  | some s => if s = "" then fallback else s
  | none => fallback

/-- Client row, restricted to the columns run_full_audit reads or writes. -/
structure AuditClient where
  name : String
  company : Option String
  language : Option String
  status : String
deriving DecidableEq

/-- Stage-1 result of _generate_full_audit: the rendered report markdown (the
structured-data dict carries none of the pipeline meta keys). -/
structure AuditStageData where
  report_markdown : String
deriving DecidableEq

/-- Stage-2 result of _run_strategy_architect. -/
structure StrategyData where
  strategy_markdown : String
deriving DecidableEq

/-- Stage-3 result of _build_proposal. -/
structure ProposalData where
  proposal_markdown : String
deriving DecidableEq

/-- Everything run_full_audit commits and returns: the produced deliverable
rows in order, the updated client status, and the returned dict fields. -/
structure AuditOutcome where
  deliverables : List Deliverable
  client_status : String
  quality_score : Option ℚ
  quality_passed : Bool
  status : String
deriving DecidableEq

/-- run_full_audit (audit_tasks.py lines 135-258): stage 1 adds an
audit_report row, stage 2 a strategy_document row, stage 3 a proposal row
(three produced deliverables; stage 4, the quality gate, produces none).
After stage 4 returns a score, gate_passed is the comparison score at least
7.0 (score key missing counts as 0); all three rows get status in_review when
gate_passed and stay draft otherwise; the audit and proposal rows receive the
gate feedback as review_notes; the client status becomes audit_delivered or
audit_requested; everything is committed at once. -/
def run_full_audit (client : AuditClient) (audit_data : AuditStageData)
    (strategy : StrategyData) (proposal : ProposalData)
    (quality_result : AgentCheckResult) : AuditOutcome :=
  let display := or_default client.company client.name
  let lang := or_default client.language "en"
  let gate_passed := decide (quality_result.score.getD 0 ≥ 7)
  let final_status := if gate_passed then "in_review" else "draft"
  let audit_deliverable : Deliverable :=
    { type := "audit_report"
      title := "Growth Infrastructure Audit: " ++ display
      body := some audit_data.report_markdown
      meta_data := some MetaData.empty
      status := final_status
      review_notes := some quality_result.feedback
      ai_agent_used := "infrastructure_auditor"
      ai_model_used := none
      ai_cost := none
      language := lang }
  let strategy_deliverable : Deliverable :=
    { type := "strategy_document"
      title := "Strategic Recommendations: " ++ display
      body := some strategy.strategy_markdown
      meta_data := some MetaData.empty
      status := final_status
      review_notes := none
      ai_agent_used := "strategy_architect"
      ai_model_used := none
      ai_cost := none
      language := lang }
  let proposal_deliverable : Deliverable :=
    { type := "proposal"
      title := "Growth Engine Proposal: " ++ display
      body := some proposal.proposal_markdown
      meta_data := some MetaData.empty
      status := final_status
      review_notes := some quality_result.feedback
      ai_agent_used := "proposal_builder"
      ai_model_used := none
      ai_cost := none
      language := lang }
  { deliverables := [audit_deliverable, strategy_deliverable, proposal_deliverable]
    client_status := if gate_passed then "audit_delivered" else "audit_requested"
    quality_score := quality_result.score
    quality_passed := gate_passed
    status := final_status }

/-- Outcome of an API endpoint: the committed record, or an HTTPException. -/
inductive ApiOutcome (α : Type) where
  | ok (value : α)
  | httpError (statusCode : Nat) (detail : String)
deriving DecidableEq

/-- True exactly when the endpoint succeeded. -/
def ApiOutcome.isOk {α : Type} : ApiOutcome α → Bool
  | .ok _ => true
  | .httpError _ _ => false

/-- The committed record of a successful endpoint, with a fallback. -/
def ApiOutcome.getD {α : Type} (o : ApiOutcome α) (fallback : α) : α :=
  match o with
  | .ok v => v
  | .httpError _ _ => fallback

/-- submit_for_review endpoint (api/content.py lines 237-269): rejects with
400 unless the status is draft or rejected, else sets status in_review. The
handler also assigns reviewed_at, reviewed_by, feedback and notes, but the
Deliverable model maps none of those as columns, so only the status column
changes on the persisted record. -/
def submit_for_review (deliverable : Deliverable) : ApiOutcome Deliverable :=
  if deliverable.status = "draft" ∨ deliverable.status = "rejected" then
    .ok { deliverable with status := "in_review" }
  else
    .httpError 400
      ("Cannot submit for review: deliverable is currently " ++ deliverable.status)

/-- approve_deliverable endpoint (api/content.py lines 272-300): rejects with
400 unless the status is in_review, else sets status approved. No score is
consulted. The reviewed_at / reviewed_by assignments are not mapped columns. -/
def approve_deliverable (deliverable : Deliverable) (_username : String) :
    ApiOutcome Deliverable :=
  if deliverable.status = "in_review" then
    .ok { deliverable with status := "approved" }
  else
    .httpError 400
      ("Cannot approve: deliverable is currently " ++ deliverable.status ++
       ", must be in_review")

/-- reject_deliverable endpoint (api/content.py lines 303-333): rejects with
400 unless the status is in_review, else sets status rejected. The feedback /
reviewed_at / reviewed_by assignments are not mapped columns. -/
def reject_deliverable (deliverable : Deliverable) (_feedback : String)
    (_username : String) : ApiOutcome Deliverable :=
  if deliverable.status = "in_review" then
    .ok { deliverable with status := "rejected" }
  else
    .httpError 400
      ("Cannot reject: deliverable is currently " ++ deliverable.status ++
       ", must be in_review")

/-- The most recently recorded combined score of a deliverable: the review
record in meta_data (there is at most one at a time). -/
def latest_combined_score (deliverable : Deliverable) : Option ℚ :=
  (deliverable.meta_data.getD MetaData.empty).review.map
    (fun r => r.combined_score)

/-- A plain draft deliverable with no meta_data, as created by a caller. -/
def sampleDraft : Deliverable :=
  { type := "article"
    title := "Sample"
    body := some "Body"
    meta_data := none
    status := "draft"
    review_notes := none
    ai_agent_used := "content_engine"
    ai_model_used := some ""
    ai_cost := none
    language := "en" }

/-- A draft on which five Iteration Stage executions have already succeeded. -/
def fiveIterDraft : Deliverable :=
  { sampleDraft with
    meta_data := some { MetaData.empty with iteration_count := some 5 } }

/-- A draft whose kind has no entry in the iteration agent map. -/
def unknownKindDraft : Deliverable :=
  { sampleDraft with type := "powerpoint" }

/-- A generation-agent result carrying concrete content. -/
def sampleGenerated : GeneratedContent :=
  { title := some "T"
    body := some "B"
    meta_data := none
    model_used := some "m"
    cost := some 0 }

/-- An iteration-agent result carrying concrete revised content. -/
def sampleRevised : RevisedDraft :=
  { title := some "RT", body := some "RB", cost := some 0 }

/-- A client row for the audit pipeline. -/
def sampleClient : AuditClient :=
  { name := "Acme"
    company := some "Acme Inc"
    language := some "en"
    status := "audit_requested" }

/-- State of sampleDraft after one review scoring 5 and 5 (combined 5). -/
def lowScoredDraft : Deliverable :=
  (review_deliverable sampleDraft
    { score := some 5, feedback := "needs work", cost := none }
    { score := some 5, feedback := "needs work", cost := none } "t1").1

/-- lowScoredDraft after the manual submit-for-review endpoint. -/
def lowScoredInReview : Deliverable :=
  (submit_for_review lowScoredDraft).getD lowScoredDraft

/-- lowScoredInReview after the manual approve endpoint. -/
def lowScoredApproved : Deliverable :=
  (approve_deliverable lowScoredInReview "admin").getD lowScoredInReview

/-- The status written by review_deliverable is the threshold comparison on
the combined score. -/
theorem review_status_def (d : Deliverable) (bv q : AgentCheckResult) (now : String) :
    (review_deliverable d bv q now).1.status
      = if combined_score_of bv q ≥ 7 then "in_review" else "draft" := rfl

/-- review_deliverable yields status in_review exactly when the combined
score reaches the threshold. -/
theorem review_in_review_iff (d : Deliverable) (bv q : AgentCheckResult) (now : String) :
    (review_deliverable d bv q now).1.status = "in_review"
      ↔ combined_score_of bv q ≥ 7 := by
  rw [review_status_def]
  split_ifs with h
  · exact iff_of_true rfl h
  · exact iff_of_false (by decide) h

/-- review_deliverable yields status draft exactly when the combined score
misses the threshold. -/
theorem review_draft_iff (d : Deliverable) (bv q : AgentCheckResult) (now : String) :
    (review_deliverable d bv q now).1.status = "draft"
      ↔ combined_score_of bv q < 7 := by
  rw [review_status_def]
  split_ifs with h
  · exact iff_of_false (by decide) (not_lt.mpr h)
  · exact iff_of_true rfl (lt_of_not_ge h)

/-- The review record written into meta_data by review_deliverable. -/
theorem review_meta_review (d : Deliverable) (bv q : AgentCheckResult) (now : String) :
    ((review_deliverable d bv q now).1.meta_data.getD MetaData.empty).review
      = some
        { brand_voice_score := bv.score
          quality_score := q.score
          combined_score := combined_score_of bv q
          reviewed_at := now } := rfl

/-- The combined score of a five-and-five review is exactly 5. -/
theorem combined_five_five :
    combined_score_of
      { score := some 5, feedback := "needs work", cost := none }
      { score := some 5, feedback := "needs work", cost := none } = 5 := by
  norm_num [combined_score_of]

/-- The status of lowScoredDraft: a combined score of 5 misses the 7.0
threshold, so the record stays draft. -/
theorem lowScoredDraft_status : lowScoredDraft.status = "draft" := by
  unfold lowScoredDraft
  rw [review_status_def, combined_five_five, if_neg (by norm_num)]

/-- The manual submit endpoint accepts lowScoredDraft. -/
theorem lowScoredDraft_submit :
    submit_for_review lowScoredDraft
      = ApiOutcome.ok { lowScoredDraft with status := "in_review" } := by
  unfold submit_for_review
  rw [if_pos (Or.inl lowScoredDraft_status)]

/-- The record after the manual submit endpoint. -/
theorem lowScoredInReview_eq :
    lowScoredInReview = { lowScoredDraft with status := "in_review" } := by
  unfold lowScoredInReview
  rw [lowScoredDraft_submit]
  rfl

/-- The manual approve endpoint accepts lowScoredInReview. -/
theorem lowScoredInReview_approve :
    approve_deliverable lowScoredInReview "admin"
      = ApiOutcome.ok { lowScoredInReview with status := "approved" } := by
  have hst : lowScoredInReview.status = "in_review" := by
    rw [lowScoredInReview_eq]
  unfold approve_deliverable
  rw [if_pos hst]

/-- The record after the manual approve endpoint. -/
theorem lowScoredApproved_eq :
    lowScoredApproved = { lowScoredInReview with status := "approved" } := by
  unfold lowScoredApproved
  rw [lowScoredInReview_approve]
  rfl

/-- The most recent combined score recorded on lowScoredApproved is 5. -/
theorem lowScoredApproved_score : latest_combined_score lowScoredApproved = some 5 := by
  rw [lowScoredApproved_eq, lowScoredInReview_eq]
  show latest_combined_score lowScoredDraft = some 5
  unfold lowScoredDraft latest_combined_score
  rw [review_meta_review, combined_five_five]
  rfl

/-- The combined score returned by review_deliverable. -/
theorem review_combined_eq (d : Deliverable) (bv q : AgentCheckResult) (now : String) :
    (review_deliverable d bv q now).2.combined_score = combined_score_of bv q := rfl

/-- Behavior of iterate_deliverable when the stored iteration count has
already reached 5: escalation branch of content_tasks.py lines 323-339. -/
theorem iterate_ceiling_behavior (d : Deliverable) (feedback : String)
    (revised : RevisedDraft) (now : String)
    (h : 5 ≤ (d.meta_data.getD MetaData.empty).iteration_count.getD 0) :
    (iterate_deliverable d feedback revised now).completion_called = false ∧
    (iterate_deliverable d feedback revised now).state.body = d.body ∧
    (iterate_deliverable d feedback revised now).state.status = "in_review" ∧
    (iterate_deliverable d feedback revised now).state.review_notes
      = some (escalation_note
          ((d.meta_data.getD MetaData.empty).iteration_count.getD 0 + 1) feedback) ∧
    (iterate_deliverable d feedback revised now).output.status = "escalated" ∧
    (iterate_deliverable d feedback revised now).output.message
      = some "Maximum iterations exceeded. Escalated for manual review." := by
  have hgt : (d.meta_data.getD MetaData.empty).iteration_count.getD 0 + 1 > 5 :=
    Nat.lt_succ_of_le h
  simp [iterate_deliverable, hgt]

/-- The returned dict of iterate_deliverable reports status escalated exactly
when the stored iteration count had already reached 5. -/
theorem iterate_output_escalated_iff (d : Deliverable) (feedback : String)
    (revised : RevisedDraft) (now : String) :
    (iterate_deliverable d feedback revised now).output.status = "escalated"
      ↔ 5 ≤ (d.meta_data.getD MetaData.empty).iteration_count.getD 0 := by
  by_cases h : 5 ≤ (d.meta_data.getD MetaData.empty).iteration_count.getD 0
  · exact iff_of_true ((iterate_ceiling_behavior d feedback revised now h).2.2.2.2.1) h
  · have hn : ¬ ((d.meta_data.getD MetaData.empty).iteration_count.getD 0 + 1 > 5) := by
      omega
    simp only [iterate_deliverable, hn]
    exact iff_of_false (by simp) h

/-- The persisted status column written by iterate_deliverable is in_review
on the ceiling branch and draft otherwise; never escalated. -/
theorem iterate_state_never_escalated (d : Deliverable) (feedback : String)
    (revised : RevisedDraft) (now : String) :
    (iterate_deliverable d feedback revised now).state.status ≠ "escalated" := by
  by_cases h : 5 ≤ (d.meta_data.getD MetaData.empty).iteration_count.getD 0
  · have hgt : (d.meta_data.getD MetaData.empty).iteration_count.getD 0 + 1 > 5 :=
      Nat.lt_succ_of_le h
    simp [iterate_deliverable, hgt]
  · have hn : ¬ ((d.meta_data.getD MetaData.empty).iteration_count.getD 0 + 1 > 5) := by
      omega
    simp [iterate_deliverable, hn]

/-- The persisted status column written by review_deliverable is never
escalated. -/
theorem review_never_escalated (d : Deliverable) (bv q : AgentCheckResult) (now : String) :
    (review_deliverable d bv q now).1.status ≠ "escalated" := by
  rw [review_status_def]
  split_ifs <;> decide

/-- generate_deliverable always creates the record in status draft. -/
theorem generate_status_draft (t : String) (g : GeneratedContent) (lang : String) :
    (generate_deliverable t g lang).1.status = "draft" := rfl

/-- Claim C1 (corrected): for every Deliverable on which 5 Iteration Stage
executions have already succeeded, the next Iteration Stage call makes no
Completion Service call, leaves body unchanged, attaches the explanatory
escalation note, and sets the persisted status column to in_review while the
returned task result reports status escalated with the message about maximum
iterations exceeded; a reported status of escalated arises exactly from this
ceiling path, and no pipeline operation ever persists a status escalated. -/
theorem c1_iteration_ceiling (d : Deliverable) (feedback : String)
    (revised : RevisedDraft) (now : String)
    (h : 5 ≤ (d.meta_data.getD MetaData.empty).iteration_count.getD 0) :
    (iterate_deliverable d feedback revised now).completion_called = false ∧
    (iterate_deliverable d feedback revised now).state.body = d.body ∧
    (iterate_deliverable d feedback revised now).state.status = "in_review" ∧
    (iterate_deliverable d feedback revised now).state.review_notes
      = some (escalation_note
          ((d.meta_data.getD MetaData.empty).iteration_count.getD 0 + 1) feedback) ∧
    (iterate_deliverable d feedback revised now).output.status = "escalated" ∧
    (iterate_deliverable d feedback revised now).output.message
      = some "Maximum iterations exceeded. Escalated for manual review." ∧
    (∀ d2 f2 r2 n2, (iterate_deliverable d2 f2 r2 n2).output.status = "escalated"
      ↔ 5 ≤ (d2.meta_data.getD MetaData.empty).iteration_count.getD 0) ∧
    (∀ d2 f2 r2 n2, (iterate_deliverable d2 f2 r2 n2).state.status ≠ "escalated") ∧
    (∀ d2 bv q n2, (review_deliverable d2 bv q n2).1.status ≠ "escalated") ∧
    (∀ t g lang, (generate_deliverable t g lang).1.status = "draft") := by
  obtain ⟨h1, h2, h3, h4, h5, h6⟩ := iterate_ceiling_behavior d feedback revised now h
  exact ⟨h1, h2, h3, h4, h5, h6,
    fun d2 f2 r2 n2 => iterate_output_escalated_iff d2 f2 r2 n2,
    fun d2 f2 r2 n2 => iterate_state_never_escalated d2 f2 r2 n2,
    fun d2 bv q n2 => review_never_escalated d2 bv q n2,
    fun t g lang => generate_status_draft t g lang⟩

/-- Claim C1, witness: fiveIterDraft has iteration count 5, and the next
iterate call skips the agent, persists in_review, and reports escalated. -/
theorem c1_iteration_ceiling_witness :
    5 ≤ ((fiveIterDraft.meta_data.getD MetaData.empty).iteration_count.getD 0) ∧
    (iterate_deliverable fiveIterDraft "fb" sampleRevised "t6").completion_called = false ∧
    (iterate_deliverable fiveIterDraft "fb" sampleRevised "t6").state.status = "in_review" ∧
    (iterate_deliverable fiveIterDraft "fb" sampleRevised "t6").output.status = "escalated" :=
  ⟨by decide,
   (c1_iteration_ceiling fiveIterDraft "fb" sampleRevised "t6" (by decide)).1,
   (c1_iteration_ceiling fiveIterDraft "fb" sampleRevised "t6" (by decide)).2.2.1,
   (c1_iteration_ceiling fiveIterDraft "fb" sampleRevised "t6" (by decide)).2.2.2.2.1⟩

/-- Claim C1, counterexample to the claim as stated: on the sixth call the
persisted status column is in_review, not escalated. -/
theorem c1_persisted_status_counterexample :
    (iterate_deliverable fiveIterDraft "fb" sampleRevised "t6").state.status = "in_review" ∧
    (iterate_deliverable fiveIterDraft "fb" sampleRevised "t6").state.status ≠ "escalated" := by
  have hb := iterate_ceiling_behavior fiveIterDraft "fb" sampleRevised "t6" (by decide)
  refine ⟨hb.2.2.1, ?_⟩
  rw [hb.2.2.1]
  decide

/-- Claim C2 (confirmed): for every Review Stage execution with brand-voice
score b and quality score q, each in the range 0 to 10, the combined score
equals 0.4 times b plus 0.6 times q, and the status becomes in_review exactly
when the combined score is at least 7.0 (exactly 7.0 passes) and draft when
it is below 7.0. -/
theorem c2_combined_score_and_threshold
    (d : Deliverable) (b q : ℚ) (fb1 fb2 : String) (c1 c2 : Option ℚ) (now : String)
    (hb0 : 0 ≤ b) (hb1 : b ≤ 10) (hq0 : 0 ≤ q) (hq1 : q ≤ 10) :
    (review_deliverable d ⟨some b, fb1, c1⟩ ⟨some q, fb2, c2⟩ now).2.combined_score
      = (4/10 : ℚ) * b + (6/10 : ℚ) * q ∧
    ((review_deliverable d ⟨some b, fb1, c1⟩ ⟨some q, fb2, c2⟩ now).1.status = "in_review"
      ↔ (4/10 : ℚ) * b + (6/10 : ℚ) * q ≥ 7) ∧
    ((review_deliverable d ⟨some b, fb1, c1⟩ ⟨some q, fb2, c2⟩ now).1.status = "draft"
      ↔ (4/10 : ℚ) * b + (6/10 : ℚ) * q < 7) := by
  have hc : combined_score_of ⟨some b, fb1, c1⟩ ⟨some q, fb2, c2⟩
      = (4/10 : ℚ) * b + (6/10 : ℚ) * q := by
    unfold combined_score_of
    simp only [Option.getD_some]
    ring
  refine ⟨?_, ?_, ?_⟩
  · rw [review_combined_eq, hc]
  · rw [review_in_review_iff, hc]
  · rw [review_draft_iff, hc]

/-- Claim C2, witness at the exact boundary: brand-voice 10 and quality 5
combine to exactly 7.0, which passes. -/
theorem c2_combined_score_and_threshold_witness :
    ((0:ℚ) ≤ 10 ∧ (10:ℚ) ≤ 10 ∧ (0:ℚ) ≤ 5 ∧ (5:ℚ) ≤ 10) ∧
    (review_deliverable sampleDraft ⟨some 10, "fb", none⟩ ⟨some 5, "fq", none⟩ "t").2.combined_score
      = (4/10 : ℚ) * 10 + (6/10 : ℚ) * 5 ∧
    (review_deliverable sampleDraft ⟨some 10, "fb", none⟩ ⟨some 5, "fq", none⟩ "t").1.status
      = "in_review" :=
  ⟨by norm_num,
   (c2_combined_score_and_threshold sampleDraft 10 5 "fb" "fq" none none "t"
     (by norm_num) (by norm_num) (by norm_num) (by norm_num)).1,
   ((c2_combined_score_and_threshold sampleDraft 10 5 "fb" "fq" none none "t"
     (by norm_num) (by norm_num) (by norm_num) (by norm_num)).2.1).mpr (by norm_num)⟩

/-- Claim C5 (corrected): every Review Stage execution writes exactly one
review record with brand-voice, quality and combined scores and a timestamp
into the review key of meta_data, overwriting any previous record and leaving
the other meta keys untouched; no ordered score_history is kept, so after n
reviews only the latest entry survives. -/
theorem c5_review_record_overwritten (d : Deliverable)
    (bv q : AgentCheckResult) (now : String) :
    ((review_deliverable d bv q now).1.meta_data.getD MetaData.empty).review
      = some
        { brand_voice_score := bv.score
          quality_score := q.score
          combined_score := combined_score_of bv q
          reviewed_at := now } ∧
    ((review_deliverable d bv q now).1.meta_data.getD MetaData.empty).versions
      = (d.meta_data.getD MetaData.empty).versions ∧
    ((review_deliverable d bv q now).1.meta_data.getD MetaData.empty).iteration_count
      = (d.meta_data.getD MetaData.empty).iteration_count :=
  ⟨review_meta_review d bv q now, rfl, rfl⟩

/-- Claim C5, counterexample to the claim as stated: after a second review
the entry recorded by the first review (combined score 9) is gone; the single
review slot holds only the latest entry, so the history after two reviews has
length one, not two. -/
theorem c5_counterexample :
    latest_combined_score
      (review_deliverable sampleDraft ⟨some 9, "f1", none⟩ ⟨some 9, "f1", none⟩ "t1").1
      = some 9 ∧
    ((review_deliverable
        (review_deliverable sampleDraft ⟨some 9, "f1", none⟩ ⟨some 9, "f1", none⟩ "t1").1
        ⟨some 1, "f2", none⟩ ⟨some 1, "f2", none⟩ "t2").1.meta_data.getD MetaData.empty).review
      = some
        { brand_voice_score := some 1
          quality_score := some 1
          combined_score := 1
          reviewed_at := "t2" } := by
  constructor
  · unfold latest_combined_score
    rw [review_meta_review]
    norm_num [combined_score_of]
  · rw [review_meta_review]
    norm_num [combined_score_of]

/-- Claim C9 (confirmed): review_deliverable never mutates body; it also
leaves title, type, agent, cost and language untouched, writing only status,
review_notes and meta_data. -/
theorem c9_review_preserves_body (d : Deliverable)
    (bv q : AgentCheckResult) (now : String) :
    (review_deliverable d bv q now).1.body = d.body ∧
    (review_deliverable d bv q now).1.title = d.title ∧
    (review_deliverable d bv q now).1.type = d.type ∧
    (review_deliverable d bv q now).1.ai_agent_used = d.ai_agent_used ∧
    (review_deliverable d bv q now).1.ai_cost = d.ai_cost ∧
    (review_deliverable d bv q now).1.language = d.language :=
  ⟨rfl, rfl, rfl, rfl, rfl, rfl⟩

/-- Claim C9, witness: concrete review execution leaving body untouched. -/
theorem c9_review_preserves_body_witness :
    (review_deliverable sampleDraft ⟨some 8, "fb", none⟩ ⟨some 8, "fq", none⟩ "t").1.body
      = sampleDraft.body :=
  (c9_review_preserves_body sampleDraft ⟨some 8, "fb", none⟩ ⟨some 8, "fq", none⟩ "t").1

/-- Claim C10 (confirmed): a review sub-check result lacking a numeric score
contributes 0 to the weighted combination; with both scores absent the
combined score is 0 and the status becomes draft, with no failure. -/
theorem c10_missing_scores_default_zero
    (d : Deliverable) (bv q : AgentCheckResult) (fb1 fb2 : String)
    (c1 c2 : Option ℚ) (now : String) :
    combined_score_of { score := none, feedback := fb1, cost := c1 } q
      = combined_score_of { score := some 0, feedback := fb1, cost := c1 } q ∧
    combined_score_of bv { score := none, feedback := fb2, cost := c2 }
      = combined_score_of bv { score := some 0, feedback := fb2, cost := c2 } ∧
    (review_deliverable d ⟨none, fb1, c1⟩ ⟨none, fb2, c2⟩ now).2.combined_score = 0 ∧
    (review_deliverable d ⟨none, fb1, c1⟩ ⟨none, fb2, c2⟩ now).1.status = "draft" := by
  refine ⟨rfl, rfl, ?_, ?_⟩
  · rw [review_combined_eq]
    unfold combined_score_of
    norm_num
  · rw [review_draft_iff]
    unfold combined_score_of
    norm_num

/-- The statuses of the three deliverable rows produced by run_full_audit are
all equal to the gate decision on the stage-4 score. -/
theorem audit_statuses (client : AuditClient) (a s p : String)
    (score : ℚ) (fb : String) (c : Option ℚ) :
    (run_full_audit client ⟨a⟩ ⟨s⟩ ⟨p⟩ ⟨some score, fb, c⟩).deliverables.map
        Deliverable.status
      = [if score ≥ 7 then "in_review" else "draft",
         if score ≥ 7 then "in_review" else "draft",
         if score ≥ 7 then "in_review" else "draft"] := by
  by_cases h : score ≥ 7
  · simp [run_full_audit, h]
  · simp [run_full_audit, h]

/-- Claim C3 (corrected): run_full_audit produces three Deliverable rows
(audit_report, strategy_document, proposal; the quality-gate stage produces
none), computes gate_passed as the comparison of the stage-4 score with 7.0,
and in one commit sets the status of all three rows to in_review when the
gate passes and leaves all three draft otherwise; at a score of 69/10 all
three end draft, at exactly 7 all three end in_review. -/
theorem c3_quality_gate_propagation (client : AuditClient) (a s p : String)
    (score : ℚ) (fb : String) (c : Option ℚ) :
    (run_full_audit client ⟨a⟩ ⟨s⟩ ⟨p⟩ ⟨some score, fb, c⟩).deliverables.length = 3 ∧
    (run_full_audit client ⟨a⟩ ⟨s⟩ ⟨p⟩ ⟨some score, fb, c⟩).deliverables.map
        Deliverable.status
      = [if score ≥ 7 then "in_review" else "draft",
         if score ≥ 7 then "in_review" else "draft",
         if score ≥ 7 then "in_review" else "draft"] ∧
    (score = 69/10 →
      (run_full_audit client ⟨a⟩ ⟨s⟩ ⟨p⟩ ⟨some score, fb, c⟩).deliverables.map
        Deliverable.status = ["draft", "draft", "draft"]) ∧
    (score = 7 →
      (run_full_audit client ⟨a⟩ ⟨s⟩ ⟨p⟩ ⟨some score, fb, c⟩).deliverables.map
        Deliverable.status = ["in_review", "in_review", "in_review"]) := by
  refine ⟨rfl, audit_statuses client a s p score fb c, ?_, ?_⟩
  · intro hs
    subst hs
    rw [audit_statuses]
    norm_num
  · intro hs
    subst hs
    rw [audit_statuses]
    norm_num

/-- Claim C3, witness at the 69/10 boundary: all three produced rows draft. -/
theorem c3_quality_gate_propagation_witness :
    ((69:ℚ)/10) = 69/10 ∧
    (run_full_audit sampleClient ⟨"A"⟩ ⟨"S"⟩ ⟨"P"⟩
        ⟨some (69/10), "fb", none⟩).deliverables.map Deliverable.status
      = ["draft", "draft", "draft"] :=
  ⟨rfl,
   (c3_quality_gate_propagation sampleClient "A" "S" "P" (69/10) "fb" none).2.2.1 rfl⟩

/-- Claim C3, counterexample to the claim as stated: the audit run produces
three deliverable rows, not four. -/
theorem c3_counterexample :
    (run_full_audit sampleClient ⟨"A"⟩ ⟨"S"⟩ ⟨"P"⟩
        ⟨some 8, "fb", none⟩).deliverables.length = 3 ∧
    (run_full_audit sampleClient ⟨"A"⟩ ⟨"S"⟩ ⟨"P"⟩
        ⟨some 8, "fb", none⟩).deliverables.length ≠ 4 :=
  ⟨rfl, by decide⟩

/-- Claim C4 (corrected): a kind with no entry in the fixed lookup table does
not fail closed: both generate_deliverable and iterate_deliverable fall back
to the default agent content_engine and complete normally in status draft. -/
theorem c4_unknown_kind_silent_default (t : String) (g : GeneratedContent)
    (lang : String) (h : GEN_AGENT_MAP.lookup t = none)
    (d : Deliverable) (fb : String) (rev : RevisedDraft) (now : String)
    (h2 : ITER_AGENT_MAP.lookup d.type = none)
    (h3 : (d.meta_data.getD MetaData.empty).iteration_count.getD 0 < 5) :
    (generate_deliverable t g lang).2.agent_used = "content_engine" ∧
    (generate_deliverable t g lang).1.ai_agent_used = "content_engine" ∧
    (generate_deliverable t g lang).2.status = "draft" ∧
    (iterate_deliverable d fb rev now).output.agent_used = some "content_engine" ∧
    (iterate_deliverable d fb rev now).output.status = "draft" := by
  have hgen : (GEN_AGENT_MAP.lookup t).getD "content_engine" = "content_engine" := by
    rw [h]
    rfl
  have hit : (ITER_AGENT_MAP.lookup d.type).getD "content_engine" = "content_engine" := by
    rw [h2]
    rfl
  have hn : ¬ ((d.meta_data.getD MetaData.empty).iteration_count.getD 0 + 1 > 5) := by
    omega
  refine ⟨?_, ?_, rfl, ?_, ?_⟩
  · show (GEN_AGENT_MAP.lookup t).getD "content_engine" = "content_engine"
    exact hgen
  · show (GEN_AGENT_MAP.lookup t).getD "content_engine" = "content_engine"
    exact hgen
  · simp [iterate_deliverable, hn, hit]
  · simp [iterate_deliverable, hn]

/-- Claim C4, witness: the kind powerpoint is absent from both lookup tables
and both stages fall back to content_engine. -/
theorem c4_unknown_kind_silent_default_witness :
    GEN_AGENT_MAP.lookup "powerpoint" = none ∧
    ITER_AGENT_MAP.lookup unknownKindDraft.type = none ∧
    (unknownKindDraft.meta_data.getD MetaData.empty).iteration_count.getD 0 < 5 ∧
    (generate_deliverable "powerpoint" sampleGenerated "en").2.agent_used
      = "content_engine" ∧
    (iterate_deliverable unknownKindDraft "fb" sampleRevised "t").output.agent_used
      = some "content_engine" :=
  ⟨by decide, by decide, by decide,
   (c4_unknown_kind_silent_default "powerpoint" sampleGenerated "en" (by decide)
     unknownKindDraft "fb" sampleRevised "t" (by decide) (by decide)).1,
   (c4_unknown_kind_silent_default "powerpoint" sampleGenerated "en" (by decide)
     unknownKindDraft "fb" sampleRevised "t" (by decide) (by decide)).2.2.2.1⟩

/-- Claim C4, counterexample to the claim as stated: generation and iteration
for the unknown kind powerpoint succeed with the silent default agent instead
of failing with an unsupported-kind error. -/
theorem c4_counterexample :
    GEN_AGENT_MAP.lookup "powerpoint" = none ∧
    (generate_deliverable "powerpoint" sampleGenerated "en").2.agent_used
      = "content_engine" ∧
    (generate_deliverable "powerpoint" sampleGenerated "en").2.status = "draft" ∧
    ITER_AGENT_MAP.lookup "powerpoint" = none ∧
    (iterate_deliverable unknownKindDraft "fb" sampleRevised "t").output.agent_used
      = some "content_engine" ∧
    (iterate_deliverable unknownKindDraft "fb" sampleRevised "t").output.status
      = "draft" :=
  ⟨by decide, rfl, rfl, by decide, rfl, rfl⟩

/-- Claim C6 (corrected): the Review Stage itself respects the threshold (it
sets in_review exactly when the recorded combined score is at least 7 and
never sets approved, recording that score as the most recent one), but the
manual endpoints consult only the status column: submit_for_review moves any
draft or rejected record to in_review and approve_deliverable approves any
in_review record, both leaving the recorded score unchanged, so status
approved does not imply that the most recent combined score is at least 7. -/
theorem c6_approval_invariant_scope :
    (∀ d bv q now, ((review_deliverable d bv q now).1.status = "in_review"
        ↔ combined_score_of bv q ≥ 7) ∧
      latest_combined_score (review_deliverable d bv q now).1
        = some (combined_score_of bv q) ∧
      (review_deliverable d bv q now).1.status ≠ "approved") ∧
    (∀ d res, submit_for_review d = ApiOutcome.ok res →
      (d.status = "draft" ∨ d.status = "rejected") ∧
      res.status = "in_review" ∧
      latest_combined_score res = latest_combined_score d) ∧
    (∀ d user res, approve_deliverable d user = ApiOutcome.ok res →
      d.status = "in_review" ∧
      res.status = "approved" ∧
      latest_combined_score res = latest_combined_score d) := by
  refine ⟨?_, ?_, ?_⟩
  · intro d bv q now
    refine ⟨review_in_review_iff d bv q now, ?_, ?_⟩
    · unfold latest_combined_score
      rw [review_meta_review]
      rfl
    · rw [review_status_def]
      split_ifs <;> decide
  · intro d res h
    unfold submit_for_review at h
    by_cases hc : d.status = "draft" ∨ d.status = "rejected"
    · rw [if_pos hc] at h
      cases h
      exact ⟨hc, rfl, rfl⟩
    · rw [if_neg hc] at h
      cases h
  · intro d user res h
    unfold approve_deliverable at h
    by_cases hc : d.status = "in_review"
    · rw [if_pos hc] at h
      cases h
      exact ⟨hc, rfl, rfl⟩
    · rw [if_neg hc] at h
      cases h

/-- Claim C6, witness: the approve endpoint applied to lowScoredInReview. -/
theorem c6_approval_invariant_scope_witness :
    approve_deliverable lowScoredInReview "admin"
      = ApiOutcome.ok { lowScoredInReview with status := "approved" } ∧
    (lowScoredInReview.status = "in_review" ∧
     ({ lowScoredInReview with status := "approved" } : Deliverable).status
       = "approved" ∧
     latest_combined_score { lowScoredInReview with status := "approved" }
       = latest_combined_score lowScoredInReview) :=
  ⟨lowScoredInReview_approve,
   c6_approval_invariant_scope.2.2 lowScoredInReview "admin"
     { lowScoredInReview with status := "approved" } lowScoredInReview_approve⟩

/-- Claim C6, counterexample to the claim as stated: a deliverable reviewed
to a combined score of 5 (below 7) is moved to in_review by the manual submit
endpoint and then approved by the approve endpoint, reaching status approved
while its most recent combined score is 5. -/
theorem c6_counterexample :
    (submit_for_review lowScoredDraft).isOk = true ∧
    (approve_deliverable lowScoredInReview "admin").isOk = true ∧
    lowScoredApproved.status = "approved" ∧
    latest_combined_score lowScoredApproved = some 5 ∧
    ¬ ((5:ℚ) ≥ 7) := by
  refine ⟨?_, ?_, ?_, lowScoredApproved_score, by norm_num⟩
  · rw [lowScoredDraft_submit]
    rfl
  · rw [lowScoredInReview_approve]
    rfl
  · rw [lowScoredApproved_eq]

/-- Claim C7 (corrected): generate_deliverable is not idempotent at the
record level: every invocation for the same request appends one fresh row, so
two invocations append two rows (with identical content, since the stage is
deterministic in the agent result); the second invocation is not a no-op. -/
theorem c7_generation_appends (db : List Deliverable) (t : String)
    (g : GeneratedContent) (lang : String) :
    (generate_step db t g lang).1 = db ++ [(generate_deliverable t g lang).1] ∧
    (generate_step ((generate_step db t g lang).1) t g lang).1
      = db ++ [(generate_deliverable t g lang).1, (generate_deliverable t g lang).1] ∧
    ((generate_step ((generate_step db t g lang).1) t g lang).1).length
      = db.length + 2 := by
  refine ⟨rfl, ?_, ?_⟩
  · show (db ++ [(generate_deliverable t g lang).1]) ++ [(generate_deliverable t g lang).1]
      = db ++ [(generate_deliverable t g lang).1, (generate_deliverable t g lang).1]
    simp
  · simp [generate_step]

/-- Claim C7, counterexample to the claim as stated: two invocations for the
same request against an empty table leave two Deliverable rows, not one. -/
theorem c7_counterexample :
    ((generate_step ((generate_step [] "article" sampleGenerated "en").1)
        "article" sampleGenerated "en").1).length = 2 ∧
    ((generate_step ((generate_step [] "article" sampleGenerated "en").1)
        "article" sampleGenerated "en").1).length ≠ 1 :=
  ⟨rfl, by decide⟩

/-- Claim C8 (corrected): the accumulated cost sums the Generation call cost
and every successful Iteration call cost — Review Stage executions never
change ai_cost — and failed iteration attempts, which raise before commit,
contribute nothing: after one Generation and two successful Iterations with
failed attempts interleaved, ai_cost is exactly the sum of the three call
costs. -/
theorem c8_cost_accumulation (t : String) (ti bo mo : Option String)
    (c0 c1 c2 : ℚ) (f0 f1 f2 f3 t0 t1 t2 t3 : String)
    (r1 r2 b1 b2 : Option String)
    (d : Deliverable) (bv q : AgentCheckResult) (now : String) :
    (iterate_deliverable
      (iterate_attempt
        (iterate_deliverable
          (iterate_attempt (generate_deliverable t ⟨ti, bo, none, mo, some c0⟩ "en").1
            f0 none t0)
          f1 ⟨r1, b1, some c1⟩ t1).state
        f2 none t2)
      f3 ⟨r2, b2, some c2⟩ t3).state.ai_cost = some (c0 + c1 + c2) ∧
    (review_deliverable d bv q now).1.ai_cost = d.ai_cost :=
  ⟨rfl, rfl⟩

/-- Claim C8, counterexample to the claim as stated: after one Generation of
cost 1 and one Review whose sub-check calls carry costs 2 and 3, the
accumulated cost is 1, not the sum 6 over all Completion Service calls. -/
theorem c8_counterexample :
    ((review_deliverable
        (generate_deliverable "article" ⟨some "T", some "B", none, some "m", some 1⟩ "en").1
        ⟨some 8, "bfb", some 2⟩ ⟨some 8, "qfb", some 3⟩ "t").1).ai_cost = some 1 ∧
    ((review_deliverable
        (generate_deliverable "article" ⟨some "T", some "B", none, some "m", some 1⟩ "en").1
        ⟨some 8, "bfb", some 2⟩ ⟨some 8, "qfb", some 3⟩ "t").1).ai_cost
      ≠ some ((1:ℚ) + 2 + 3) := by
  refine ⟨rfl, ?_⟩
  have h : ((review_deliverable
      (generate_deliverable "article" ⟨some "T", some "B", none, some "m", some 1⟩ "en").1
      ⟨some 8, "bfb", some 2⟩ ⟨some 8, "qfb", some 3⟩ "t").1).ai_cost = some 1 := rfl
  rw [h]
  simp only [ne_eq, Option.some.injEq]
  norm_num

end Apex
